import Mathlib

/-!
Verification of the MASQ/Substratum relay-core specification against the
repository sources.

The routing core (`sub_lib::route`, `sub_lib::cryptde_null`, the hopper
package types and the JSON masquerader) is exercised by
`src/multinode_integration_tests/tests/cores_client_server_test.rs` but its
implementation is not among the provided sources, so those parts are
modelled from the specification, as marked on each definition.  The
`masq` shutdown command, the daemon setup reporter and the DNS inspector
are embedded directly from their sources under `src/`.

Machine integers are modelled as `Nat`; byte sequences as `List Nat`;
fallible Rust functions return `Except`; a Rust `panic!`/`unimplemented!`
is modelled as `Option.none` in the function's result.
-/

namespace MasqNode

/-- Modelled from the spec (§3): a public key is an opaque byte sequence
identifying the peer a hop or payload is encrypted for. -/
structure PublicKey where
  data : List Nat
deriving DecidableEq

/-- Modelled from the spec (§3): a private key, held only by its owner. -/
structure PrivateKey where
  data : List Nat
deriving DecidableEq

/-- Modelled from the spec (§3): the Component tag naming the logical
subsystem at the final hop that receives a delivered payload. -/
inductive Component where
  | Neighborhood
  | Hopper
  | ProxyServer
  | ProxyClient
deriving DecidableEq

/-- Modelled from the spec (§4.1, §6): the deterministic null CryptDE used by
the integration tests (`CryptDENull`), bound to one local key pair.  Its
reversible transform is modelled symbolically; a private key decrypts
exactly the ciphertexts addressed to the public key with the same bytes,
preserving the fail-on-wrong-key contract. -/
structure CryptDENull where
  key : List Nat
deriving DecidableEq

/-- Modelled from the spec: the public half of the null CryptDE's key pair. -/
def CryptDENull.public_key (c : CryptDENull) : PublicKey := ⟨c.key⟩

/-- Modelled from the spec: the private half of the null CryptDE's key pair. -/
def CryptDENull.private_key (c : CryptDENull) : PrivateKey := ⟨c.key⟩

/-- Modelled from the spec (§3): what the current holder of a route learns by
decrypting the front hop: the next hop's public key, or the terminal marker
carrying the destination Component. -/
inductive NextItem where
  | forward (k : PublicKey)
  | terminal (c : Component)
deriving DecidableEq

/-- Modelled from the spec (§3, §4.2): the telescoping encrypted hop chain of
a Route.  `layer k next rest` stands for the ciphertext, decryptable only
with the private key matching `k`, that yields the next-hop instruction
`next` together with the still-encrypted remainder `rest`. -/
inductive RouteChain where
  | empty
  | layer (forKey : PublicKey) (next : NextItem) (rest : RouteChain)
deriving DecidableEq

/-- Modelled from the spec (§3): a Route owns its encrypted hop chain. -/
structure Route where
  hops : RouteChain
deriving DecidableEq

/-- Modelled from the spec (§7): the route error taxonomy (malformed or
discontinuous segments, cannot-decrypt-front-hop, too-many-hops, and the
empty-route consumption case). -/
inductive RouteError where
  | Malformed
  | CannotDecrypt
  | TooManyHops
  | EmptyRoute
deriving DecidableEq

/-- Modelled from the spec (§4.2): the outcome of shifting a route once. -/
inductive HopOutcome where
  | Forward (k : PublicKey)
  | DeliverLocally (c : Component)
deriving DecidableEq

/-- Modelled from the spec (§3): an ordered sub-path of public keys plus the
destination Component tag. -/
structure RouteSegment where
  keys : List PublicKey
  component : Component
deriving DecidableEq

/-- Modelled from the spec (§3, §4.2): adjoining segments must share their
boundary key, segment N's last key equalling segment N+1's first key. -/
def routeSegmentsContinuous : List RouteSegment → Bool
  | [] => true
  | [_] => true
  | s1 :: s2 :: rest =>
      decide (s1.keys.getLast? = s2.keys.head?) && routeSegmentsContinuous (s2 :: rest)

/-- Modelled from the spec (§4.2 step 2): the ordered hop list of a route is
the flattening of its segments' key lists. -/
def flattenKeys (segs : List RouteSegment) : List PublicKey :=
  (segs.map RouteSegment.keys).flatten

/-- Modelled from the spec (§4.2 steps 2-3): hop i is addressed to key i and
carries the next hop's key, the last hop carrying the terminal Component;
encryption proceeds from the last hop backward so each layer wraps the
remainder. -/
def buildChain : List PublicKey → Component → RouteChain
  | [], _ => .empty
  | [k], c => .layer k (.terminal c) .empty
  | k :: k2 :: rest, c => .layer k (.forward k2) (buildChain (k2 :: rest) c)

/-- Modelled from the spec (§3): the destination Component of a route is the
one carried by its last segment (the default is unreachable because
`Route::new` rejects empty segment lists). -/
def lastComponent (segs : List RouteSegment) : Component :=
  match segs.getLast? with
  | some s => s.component
  | none => Component.Neighborhood

/-- Modelled from the spec (§4.2): `Route::new` validates non-emptiness and
segment continuity, then builds the telescoping hop chain. -/
def Route.new (segs : List RouteSegment) : Except RouteError Route :=
  if segs = [] then .error .Malformed
  else if routeSegmentsContinuous segs then
    .ok ⟨buildChain (flattenKeys segs) (lastComponent segs)⟩
  else .error .Malformed

/-- Modelled from the spec (§3): the hop count of a route. -/
def RouteChain.length : RouteChain → Nat
  | .empty => 0
  | .layer _ _ rest => rest.length + 1

/-- Modelled from the spec (§3): the number of hop entries left in a route. -/
def Route.hopCount (r : Route) : Nat := r.hops.length

/-- Modelled from the spec (§4.1): decrypting the front layer with the null
CryptDE fails with a wrong-key error unless the private key matches the key
the layer was encrypted for. -/
def decryptFront (priv : PrivateKey) : RouteChain → Except RouteError (NextItem × RouteChain)
  | .empty => .error .EmptyRoute
  | .layer k next rest =>
      if priv.data = k.data then .ok (next, rest) else .error .CannotDecrypt

/-- Modelled from the spec (§4.2): translating the decrypted front-hop
instruction into the relay's outcome. -/
def NextItem.toOutcome : NextItem → HopOutcome
  | .forward k => .Forward k
  | .terminal c => .DeliverLocally c

/-- Modelled from the spec (§4.2, §9): `route.shift` decrypts exactly the
front hop; on success it consumes it and returns the outcome together with
the shorter route; on decryption failure it returns
`RouteError::CannotDecrypt` and the route unchanged (atomic failure). -/
def Route.shift (priv : PrivateKey) (r : Route) : Except RouteError HopOutcome × Route :=
  match decryptFront priv r.hops with
  | .ok (next, rest) => (.ok next.toOutcome, ⟨rest⟩)
  | .error e => (.error e, r)

/-- The private keys matching a list of public keys under the null CryptDE. -/
def privateKeysFor (ks : List PublicKey) : List PrivateKey :=
  ks.map fun k => ⟨k.data⟩

/-- Shifting a route once per private key, in order, collecting each shift's
outcome and the route finally left over. -/
def shiftAll : List PrivateKey → Route → List (Except RouteError HopOutcome) × Route
  | [], r => ([], r)
  | p :: ps, r =>
      let step := Route.shift p r
      let rest := shiftAll ps step.2
      (step.1 :: rest.1, rest.2)

theorem shift_layer_matched (k : PublicKey) (next : NextItem) (rest : RouteChain) :
    Route.shift ⟨k.data⟩ ⟨RouteChain.layer k next rest⟩ = (.ok next.toOutcome, ⟨rest⟩) := by
  simp [Route.shift, decryptFront]

theorem shiftAll_cons (p : PrivateKey) (ps : List PrivateKey) (r : Route) :
    shiftAll (p :: ps) r =
      ((Route.shift p r).1 :: (shiftAll ps (Route.shift p r).2).1,
        (shiftAll ps (Route.shift p r).2).2) := rfl

theorem buildChain_length (c : Component) :
    ∀ ks : List PublicKey, (buildChain ks c).length = ks.length := by
  intro ks
  induction ks with
  | nil => rfl
  | cons k ks ih =>
      cases ks with
      | nil => rfl
      | cons k2 rest =>
          simp only [buildChain, RouteChain.length, List.length_cons] at ih ⊢
          omega

theorem shiftAll_buildChain (c : Component) :
    ∀ ks : List PublicKey, ks ≠ [] →
      shiftAll (privateKeysFor ks) ⟨buildChain ks c⟩ =
        ((ks.tail.map fun k => Except.ok (HopOutcome.Forward k)) ++
          [Except.ok (HopOutcome.DeliverLocally c)], ⟨RouteChain.empty⟩) := by
  intro ks
  induction ks with
  | nil => intro h; exact absurd rfl h
  | cons k ks ih =>
      intro _
      cases ks with
      | nil =>
          simp only [privateKeysFor, List.map_cons, List.map_nil, buildChain, shiftAll,
            shift_layer_matched, NextItem.toOutcome, List.tail_cons, List.nil_append]
      | cons k2 rest =>
          have ihr := ih (by simp)
          simp only [privateKeysFor, List.map_cons] at ihr ⊢
          rw [shiftAll_cons]
          simp only [buildChain]
          rw [shift_layer_matched]
          dsimp only [NextItem.toOutcome]
          rw [ihr]
          simp

/-- C2: for every route built by `Route::new` over keys k1..kN, shifting the
route exactly N times with the private keys matching k1..kN in that order
yields `Forward` of the next public key on each of the first N-1 shifts and
`DeliverLocally` of the segment's component on the Nth shift, after which
the remaining route is empty. -/
theorem route_built_then_fully_shifted (segs : List RouteSegment) (lastSeg : RouteSegment)
    (r : Route)
    (h1 : segs.getLast? = some lastSeg)
    (h2 : Route.new segs = Except.ok r)
    (h3 : flattenKeys segs ≠ []) :
    r.hopCount = (flattenKeys segs).length ∧
    shiftAll (privateKeysFor (flattenKeys segs)) r =
      (((flattenKeys segs).tail.map fun k => Except.ok (HopOutcome.Forward k)) ++
        [Except.ok (HopOutcome.DeliverLocally lastSeg.component)], ⟨RouteChain.empty⟩) := by
  have hne : segs ≠ [] := by rintro rfl; simp at h1
  have hlc : lastComponent segs = lastSeg.component := by unfold lastComponent; rw [h1]
  unfold Route.new at h2
  rw [if_neg hne] at h2
  by_cases hc : routeSegmentsContinuous segs = true
  · rw [if_pos hc] at h2
    have hr := Except.ok.inj h2
    subst hr
    refine ⟨buildChain_length _ _, ?_⟩
    rw [← hlc]
    exact shiftAll_buildChain (lastComponent segs) (flattenKeys segs) h3
  · rw [if_neg hc] at h2
    exact Except.noConfusion h2

/-- C2 witness: a concrete two-key route, built and then shifted twice. -/
theorem route_built_then_fully_shifted_case :
    Route.hopCount ⟨buildChain (flattenKeys [⟨[⟨[1]⟩, ⟨[2]⟩], Component.Neighborhood⟩])
        Component.Neighborhood⟩ =
      (flattenKeys [⟨[⟨[1]⟩, ⟨[2]⟩], Component.Neighborhood⟩]).length ∧
    shiftAll (privateKeysFor (flattenKeys [⟨[⟨[1]⟩, ⟨[2]⟩], Component.Neighborhood⟩]))
        ⟨buildChain (flattenKeys [⟨[⟨[1]⟩, ⟨[2]⟩], Component.Neighborhood⟩])
          Component.Neighborhood⟩ =
      (((flattenKeys [⟨[⟨[1]⟩, ⟨[2]⟩], Component.Neighborhood⟩]).tail.map
          fun k => Except.ok (HopOutcome.Forward k)) ++
        [Except.ok (HopOutcome.DeliverLocally Component.Neighborhood)], ⟨RouteChain.empty⟩) :=
  route_built_then_fully_shifted [⟨[⟨[1]⟩, ⟨[2]⟩], Component.Neighborhood⟩]
    ⟨[⟨[1]⟩, ⟨[2]⟩], Component.Neighborhood⟩ _ rfl rfl (by decide)

/-- C3: shifting with a private key that does not match the front hop's
intended recipient fails with `RouteError::CannotDecrypt` and leaves the
route unmodified, so in particular its hop count is unchanged. -/
theorem route_shift_wrong_key (k : PublicKey) (next : NextItem) (rest : RouteChain)
    (priv : PrivateKey) (h : priv.data ≠ k.data) :
    Route.shift priv ⟨RouteChain.layer k next rest⟩ =
      (.error RouteError.CannotDecrypt, ⟨RouteChain.layer k next rest⟩) ∧
    (Route.shift priv ⟨RouteChain.layer k next rest⟩).2.hopCount =
      Route.hopCount ⟨RouteChain.layer k next rest⟩ := by
  have hshift : Route.shift priv ⟨RouteChain.layer k next rest⟩ =
      (.error RouteError.CannotDecrypt, ⟨RouteChain.layer k next rest⟩) := by
    simp [Route.shift, decryptFront, h]
  exact ⟨hshift, by rw [hshift]⟩

/-- C3 witness: a concrete single-hop route shifted with a mismatched key. -/
theorem route_shift_wrong_key_case :
    Route.shift ⟨[9]⟩ ⟨RouteChain.layer ⟨[1]⟩ (NextItem.terminal Component.Neighborhood)
        RouteChain.empty⟩ =
      (.error RouteError.CannotDecrypt,
        ⟨RouteChain.layer ⟨[1]⟩ (NextItem.terminal Component.Neighborhood) RouteChain.empty⟩) ∧
    (Route.shift ⟨[9]⟩ ⟨RouteChain.layer ⟨[1]⟩ (NextItem.terminal Component.Neighborhood)
        RouteChain.empty⟩).2.hopCount =
      Route.hopCount ⟨RouteChain.layer ⟨[1]⟩ (NextItem.terminal Component.Neighborhood)
        RouteChain.empty⟩ :=
  route_shift_wrong_key ⟨[1]⟩ (NextItem.terminal Component.Neighborhood) RouteChain.empty
    ⟨[9]⟩ (by decide)

/-- C4: for every non-empty segment list whose adjoining segments share
their boundary key, `Route::new` succeeds and the hop count of the
resulting route equals the sum of the segment lengths. -/
theorem route_new_hop_count (segs : List RouteSegment)
    (h1 : segs ≠ [])
    (h2 : routeSegmentsContinuous segs = true) :
    ∃ r, Route.new segs = Except.ok r ∧
      r.hopCount = (segs.map fun s => s.keys.length).sum := by
  refine ⟨⟨buildChain (flattenKeys segs) (lastComponent segs)⟩, ?_, ?_⟩
  · unfold Route.new
    rw [if_neg h1, if_pos h2]
  · show (buildChain (flattenKeys segs) (lastComponent segs)).length = _
    rw [buildChain_length]
    unfold flattenKeys
    rw [List.length_flatten, List.map_map]
    rfl

/-- Modelled from the spec (§4.4, §7): the masquerading error taxonomy. -/
inductive MasqueradeError where
  | Incomplete
  | TooLarge
  | MalformedEnvelope
deriving DecidableEq

/-- Modelled from the spec (§6): the framing marker opening the textual
envelope of the JSON masquerader, the bytes of an opening brace and a
double quote. -/
def jsonFramingMarker : List Nat := [123, 34]

/-- Modelled from the spec (§4.4): the implementation-defined maximum size
of a frame the masquerader accepts. -/
def maxFrameSize : Nat := 65536

/-- Modelled from the spec (§4.4, §6): `Masquerader::mask` wraps the raw
package bytes in the envelope, a framing marker followed by the
length-encoded raw bytes; oversized input fails with
`MasqueradeError::TooLarge`. -/
def mask (x : List Nat) : Except MasqueradeError (List Nat) :=
  if x.length ≤ maxFrameSize then .ok (jsonFramingMarker ++ x.length :: x)
  else .error .TooLarge

/-- Modelled from the spec (§4.4, §6): `Masquerader::try_unmask` consumes one
self-delimited frame: it checks the framing marker, reads the encoded
length and recovers exactly that many raw bytes; partial data yields
`Incomplete`, anything else malformed yields `MalformedEnvelope`, and no
input can make it panic. -/
def unmask (w : List Nat) : Except MasqueradeError (List Nat) :=
  if w.take jsonFramingMarker.length = jsonFramingMarker then
    match w.drop jsonFramingMarker.length with
    | [] => .error .Incomplete
    | len :: rest =>
        if maxFrameSize < len then .error .TooLarge
        else if rest.length < len then .error .Incomplete
        else if len < rest.length then .error .MalformedEnvelope
        else .ok rest
  else .error .MalformedEnvelope

theorem unmask_mask (x : List Nat) (h : x.length ≤ maxFrameSize) :
    (mask x).bind unmask = Except.ok x := by
  rw [mask, if_pos h]
  show unmask (jsonFramingMarker ++ x.length :: x) = Except.ok x
  rw [unmask, if_pos (List.take_left jsonFramingMarker (x.length :: x)),
    List.drop_left jsonFramingMarker (x.length :: x)]
  dsimp only
  rw [if_neg (by omega), if_neg (by omega), if_neg (by omega)]

theorem mask_unmask (w y : List Nat) (h : unmask w = Except.ok y) :
    mask y = Except.ok w := by
  rw [unmask] at h
  by_cases hm : w.take jsonFramingMarker.length = jsonFramingMarker
  · rw [if_pos hm] at h
    cases hd : w.drop jsonFramingMarker.length with
    | nil => rw [hd] at h; exact Except.noConfusion h
    | cons len rest =>
        rw [hd] at h
        dsimp only at h
        by_cases h1 : maxFrameSize < len
        · rw [if_pos h1] at h; exact Except.noConfusion h
        · rw [if_neg h1] at h
          by_cases h2 : rest.length < len
          · rw [if_pos h2] at h; exact Except.noConfusion h
          · rw [if_neg h2] at h
            by_cases h3 : len < rest.length
            · rw [if_pos h3] at h; exact Except.noConfusion h
            · rw [if_neg h3] at h
              have hy : rest = y := Except.ok.inj h
              have hlen : len = rest.length := by omega
              have hw : w = jsonFramingMarker ++ len :: rest := by
                conv_lhs => rw [← List.take_append_drop jsonFramingMarker.length w]
                rw [hm, hd]
              subst hy
              rw [mask, if_pos (by omega), hw, hlen]
  · rw [if_neg hm] at h
    exact Except.noConfusion h

/-- C1: masking any byte sequence within the size bound and unmasking the
result returns exactly the original bytes, and `unmask` only ever accepts
exact images of `mask` and otherwise returns an error value, never
panicking. -/
theorem masquerade_round_trip :
    (∀ x : List Nat, x.length ≤ maxFrameSize → (mask x).bind unmask = Except.ok x) ∧
    (∀ w y : List Nat, unmask w = Except.ok y → mask y = Except.ok w) ∧
    (∀ w : List Nat, (∃ y, unmask w = Except.ok y) ∨ (∃ e, unmask w = Except.error e)) := by
  refine ⟨unmask_mask, mask_unmask, ?_⟩
  intro w
  cases h : unmask w with
  | ok y => exact Or.inl ⟨y, rfl⟩
  | error e => exact Or.inr ⟨e, rfl⟩

/-- C1 witness: a concrete masked frame unmasking to its original bytes,
and a concrete malformed input rejected with an error. -/
theorem masquerade_round_trip_case :
    (mask [5, 6, 7]).bind unmask = Except.ok [5, 6, 7] ∧
    ((∃ y, unmask [9, 9, 9] = Except.ok y) ∨ (∃ e, unmask [9, 9, 9] = Except.error e)) :=
  ⟨masquerade_round_trip.1 [5, 6, 7] (by decide),
    masquerade_round_trip.2.2 [9, 9, 9]⟩

/-- Modelled from the spec (§4.1, §7): the CryptDE error taxonomy; only the
wrong-key case is reachable in the null implementation. -/
inductive CryptError where
  | WrongKey
deriving DecidableEq

/-- Modelled from the spec (§3): a ciphertext, represented symbolically as
the data together with the public key it was encrypted for. -/
structure CryptData where
  forKey : PublicKey
  data : List Nat
deriving DecidableEq

/-- Modelled from the spec (§4.1): null-CryptDE decryption of a ciphertext,
failing with a wrong-key error unless the private key matches. -/
def decryptData (priv : PrivateKey) (cd : CryptData) : Except CryptError (List Nat) :=
  if priv.data = cd.forKey.data then .ok cd.data else .error .WrongKey

/-- Modelled from the spec (§3): an outbound package owning a not-yet-shifted
route and a serialized payload encrypted for the final recipient's key. -/
structure IncipientCoresPackage where
  route : Route
  payload : CryptData
deriving DecidableEq

/-- Modelled from the spec (§4.3): the in-transit form of a package, the
partially consumed route together with the still-encrypted payload. -/
structure LiveCoresPackage where
  route : Route
  payload : CryptData
deriving DecidableEq

/-- Modelled from the spec (§3): the terminal form, the already-fully-shifted
remaining route and the decrypted payload bytes. -/
structure ExpiredCoresPackage where
  remaining_route : Route
  payload : List Nat
deriving DecidableEq

/-- Modelled from the spec (§3): payload serialization, the code points of
the payload string (standing in for the CBOR encoding of the test). -/
def serializeString (s : String) : List Nat :=
  s.data.map Char.toNat

/-- Modelled from the spec (§3): payload deserialization back to a string. -/
def deserializeString (bs : List Nat) : String :=
  ⟨bs.map Char.ofNat⟩

/-- Modelled from the spec (§3): `IncipientCoresPackage::new` serializes the
payload and encrypts it for the final recipient's public key. -/
def IncipientCoresPackage.new (route : Route) (payload : String)
    (payloadDestKey : PublicKey) : IncipientCoresPackage :=
  ⟨route, ⟨payloadDestKey, serializeString payload⟩⟩

/-- Modelled from the spec (§6): length-delimited encoding of a byte block
inside the wire representation of a package. -/
def encBytes (bs : List Nat) : List Nat := bs.length :: bs

/-- Decoder matching `encBytes`, returning the block and the leftover. -/
def decBytes : List Nat → Option (List Nat × List Nat)
  | [] => none
  | len :: rest =>
      if len ≤ rest.length then some (rest.take len, rest.drop len) else none

/-- Wire encoding of a public key. -/
def encKey (k : PublicKey) : List Nat := encBytes k.data

/-- Decoder matching `encKey`. -/
def decKey (bs : List Nat) : Option (PublicKey × List Nat) :=
  (decBytes bs).map fun p => (⟨p.1⟩, p.2)

/-- Wire code of a Component tag. -/
def componentCode : Component → Nat
  | .Neighborhood => 0
  | .Hopper => 1
  | .ProxyServer => 2
  | .ProxyClient => 3

/-- Decoder matching `componentCode`. -/
def componentFromCode : Nat → Option Component
  | 0 => some .Neighborhood
  | 1 => some .Hopper
  | 2 => some .ProxyServer
  | 3 => some .ProxyClient
  | _ => none

/-- Wire encoding of a decrypted next-hop instruction. -/
def encNext : NextItem → List Nat
  | .forward k => 0 :: encKey k
  | .terminal c => [1, componentCode c]

/-- Decoder matching `encNext`. -/
def decNext : List Nat → Option (NextItem × List Nat)
  | 0 :: rest => (decKey rest).map fun p => (.forward p.1, p.2)
  | 1 :: c :: rest => (componentFromCode c).map fun comp => (.terminal comp, rest)
  | _ => none

/-- Wire encoding of the route's hop chain. -/
def encChain : RouteChain → List Nat
  | .empty => [0]
  | .layer k n rest => 1 :: (encKey k ++ (encNext n ++ encChain rest))

/-- Fuelled decoder matching `encChain`; the fuel bounds the recursion and
is instantiated with the input length. -/
def decChainF : Nat → List Nat → Option (RouteChain × List Nat)
  | _, 0 :: rest => some (.empty, rest)
  | Nat.succ fuel, 1 :: rest =>
      match decKey rest with
      | none => none
      | some (k, r1) =>
          match decNext r1 with
          | none => none
          | some (n, r2) =>
              match decChainF fuel r2 with
              | none => none
              | some (chain, r3) => some (.layer k n chain, r3)
  | _, _ => none

/-- Wire serialization of a live CORES package: hop chain, payload
destination key and encrypted payload bytes. -/
def encLive (p : LiveCoresPackage) : List Nat :=
  encChain p.route.hops ++ (encKey p.payload.forKey ++ encBytes p.payload.data)

/-- Wire deserialization of a live CORES package, rejecting trailing bytes. -/
def decLive (bs : List Nat) : Option LiveCoresPackage :=
  match decChainF bs.length bs with
  | none => none
  | some (chain, r1) =>
      match decKey r1 with
      | none => none
      | some (k, r2) =>
          match decBytes r2 with
          | some (d, []) => some ⟨⟨chain⟩, ⟨k, d⟩⟩
          | _ => none

/-- Modelled from the spec (§3, §4.4): the JSON discriminator classifies an
incoming frame, recognizing the JSON framing marker and handing the frame
to the JSON masquerader. -/
def discriminate (w : List Nat) : Option (List Nat) :=
  if w.take jsonFramingMarker.length = jsonFramingMarker then some w else none

/-- Modelled from the spec (§4.3): the originating node's transmit path: it
shifts the route once with its own private key to learn the first stop,
forms the live package with the shortened route, serializes and masks it,
and returns the first stop's key with the wire bytes. -/
def transmitPackage (cryptde : CryptDENull) (pkg : IncipientCoresPackage) :
    Option (PublicKey × List Nat) :=
  match Route.shift cryptde.private_key pkg.route with
  | (Except.ok (HopOutcome.Forward nextKey), liveRoute) =>
      match mask (encLive ⟨liveRoute, pkg.payload⟩) with
      | .ok wire => some (nextKey, wire)
      | .error _ => none
  | _ => none

/-- Modelled from the spec (§4.3): a relay's in-transit step: discriminate
and unmask the wire bytes, deserialize the live package, shift the route
once with the relay's private key, and re-serialize and re-mask the
package for the next hop. -/
def relayPackage (cryptde : CryptDENull) (wire : List Nat) :
    Option (PublicKey × List Nat) :=
  match discriminate wire with
  | none => none
  | some frame =>
      match unmask frame with
      | .error _ => none
      | .ok bs =>
          match decLive bs with
          | none => none
          | some live =>
              match Route.shift cryptde.private_key live.route with
              | (Except.ok (HopOutcome.Forward nextKey), liveRoute) =>
                  match mask (encLive ⟨liveRoute, live.payload⟩) with
                  | .ok wire2 => some (nextKey, wire2)
                  | .error _ => none
              | _ => none

/-- Modelled from the spec (§3, §4.3): the receiving harness standing in for
the final recipient: discriminate and unmask the wire bytes, deserialize
the live package, decrypt the payload with the local private key and
synthesize the `ExpiredCoresPackage`. -/
def receivePackage (cryptde : CryptDENull) (wire : List Nat) :
    Option ExpiredCoresPackage :=
  match discriminate wire with
  | none => none
  | some frame =>
      match unmask frame with
      | .error _ => none
      | .ok bs =>
          match decLive bs with
          | none => none
          | some live =>
              match decryptData cryptde.private_key live.payload with
              | .error _ => none
              | .ok d => some ⟨live.route, d⟩

/-- The node of the single-hop loopback test, talking to itself. -/
def loopbackCryptde : CryptDENull := ⟨[42]⟩

/-- The single-hop loopback scenario of `relay_cores_package`: a one-segment
route over the node's own public key twice with Component Neighborhood,
payload Booga booga! wrapped in an `IncipientCoresPackage`, masked,
transmitted to self, then discriminated, unmasked and shifted once;
returns the original route together with the expired package. -/
def loopbackScenario : Option (Route × ExpiredCoresPackage) :=
  match Route.new [⟨[loopbackCryptde.public_key, loopbackCryptde.public_key],
      Component.Neighborhood⟩] with
  | .error _ => none
  | .ok route =>
      let incipient := IncipientCoresPackage.new route "Booga booga!"
        loopbackCryptde.public_key
      match transmitPackage loopbackCryptde incipient with
      | none => none
      | some (_, wire) =>
          (receivePackage loopbackCryptde wire).map fun e => (route, e)

/-- C5: in the single-hop loopback scenario the resulting
`ExpiredCoresPackage`'s payload deserializes to Booga booga! and its
remaining route equals the original route shifted once with the same
private key, structurally. -/
theorem cores_loopback_delivery :
    ∃ route expired, loopbackScenario = some (route, expired) ∧
      deserializeString expired.payload = "Booga booga!" ∧
      expired.remaining_route = (Route.shift loopbackCryptde.private_key route).2 := by
  refine ⟨⟨RouteChain.layer ⟨[42]⟩ (.forward ⟨[42]⟩)
      (RouteChain.layer ⟨[42]⟩ (.terminal .Neighborhood) .empty)⟩,
    ⟨⟨RouteChain.layer ⟨[42]⟩ (.terminal .Neighborhood) .empty⟩,
      serializeString "Booga booga!"⟩, ?_, ?_, ?_⟩ <;> decide

/-- The originating and final node of the multi-hop test. -/
def cryptdeA : CryptDENull := ⟨[65]⟩

/-- The intermediate relay of the multi-hop test. -/
def cryptdeB : CryptDENull := ⟨[66]⟩

/-- The payload of the multi-hop test. -/
def multihopPayload : String := "serious web request aaaaaaaahhhhhhhhhhhhhhhhhhhhhh"

/-- The multi-hop scenario of
`send_and_receive_masqueraded_cores_package_through_node`: a single
3-key segment over keys A, B, A destined for Component ProxyClient; node A
originates, relay B decrypts its layer and forwards, node A decrypts and
delivers; returns both forwarding targets and the delivered payload
bytes. -/
def multihopScenario : Option (PublicKey × PublicKey × List Nat) :=
  match Route.new [⟨[cryptdeA.public_key, cryptdeB.public_key, cryptdeA.public_key],
      Component.ProxyClient⟩] with
  | .error _ => none
  | .ok route =>
      let incipient := IncipientCoresPackage.new route multihopPayload
        cryptdeA.public_key
      match transmitPackage cryptdeA incipient with
      | none => none
      | some (t1, wire1) =>
          match relayPackage cryptdeB wire1 with
          | none => none
          | some (t2, wire2) =>
              (receivePackage cryptdeA wire2).map fun e => (t1, t2, e.payload)

/-- C6: in the multi-hop scenario over keys A, B, A the package is first
forwarded to B, then to A, and the payload delivered after the two
decryption layers equals the originally sent payload bit for bit. -/
theorem cores_multihop_payload_integrity :
    multihopScenario =
      some (cryptdeB.public_key, cryptdeA.public_key, serializeString multihopPayload) ∧
    deserializeString (serializeString multihopPayload) = multihopPayload := by
  constructor <;> decide

/-- C4 witness: two concrete segments sharing their boundary key. -/
theorem route_new_hop_count_case :
    ∃ r, Route.new [⟨[⟨[1]⟩, ⟨[2]⟩], Component.Hopper⟩,
        ⟨[⟨[2]⟩, ⟨[3]⟩], Component.ProxyClient⟩] = Except.ok r ∧
      r.hopCount = ([⟨[⟨[1]⟩, ⟨[2]⟩], Component.Hopper⟩,
        ⟨[⟨[2]⟩, ⟨[3]⟩], Component.ProxyClient⟩].map
          fun s : RouteSegment => s.keys.length).sum :=
  route_new_hop_count _ (by decide) (by decide)

/-- Embedding of the `CommandError` variants used by
`ShutdownCommand::execute` (`commands_common` itself is not under `src/`;
the variants are taken from their use in `shutdown_command.rs`). -/
inductive CommandError where
  | ConnectionDropped (msg : String)
  | Transmission (msg : String)
  | Payload (code : Nat) (message : String)
  | Other (msg : String)
deriving DecidableEq

/-- Modelled from the spec: the `masq_lib` constant `NODE_NOT_RUNNING_ERROR`
is not under `src/`; `execute` only compares payload codes against it, so
its exact numeric value is immaterial here. -/
def NODE_NOT_RUNNING_ERROR : Nat := 0x80000000

/-- Embedding of `DEFAULT_SHUTDOWN_ATTEMPT_INTERVAL` (milliseconds). -/
def DEFAULT_SHUTDOWN_ATTEMPT_INTERVAL : Nat := 250

/-- Embedding of `DEFAULT_SHUTDOWN_ATTEMPT_LIMIT`. -/
def DEFAULT_SHUTDOWN_ATTEMPT_LIMIT : Nat := 4

/-- The observable effects of one `ShutdownCommand::execute` call: its return
value (`none` models a panic), the lines written to stdout and stderr, and
the arguments of the awaiter call when one was made. -/
structure ShutdownExecuteResult where
  outcome : Option (Except CommandError Unit)
  stdout : List String
  stderr : List String
  awaiterCall : Option (Nat × Nat × Nat)

/-- Embedding of `ShutdownCommand::execute`: the result of the single
shutdown transaction is an input (the transport is external), the awaiter
an oracle; the branch structure, messages and returns mirror the source. -/
def shutdownExecute (transactResult : Except CommandError Unit) (activePort : Nat)
    (awaiter : Nat → Nat → Nat → Bool)
    (attemptInterval attemptLimit : Nat) : ShutdownExecuteResult :=
  match transactResult with
  | .ok _ =>
      if awaiter activePort attemptInterval attemptLimit then
        ⟨some (.ok ()),
          ["MASQNode was instructed to shut down and has stopped answering"], [],
          some (activePort, attemptInterval, attemptLimit)⟩
      else
        ⟨some (.error (.Other "Shutdown failed")), [],
          ["MASQNode ignored the instruction to shut down and is still running"],
          some (activePort, attemptInterval, attemptLimit)⟩
  | .error (.ConnectionDropped _) =>
      ⟨some (.ok ()),
        ["MASQNode was instructed to shut down and has broken its connection"], [], none⟩
  | .error (.Transmission _) =>
      ⟨some (.ok ()),
        ["MASQNode was instructed to shut down and has broken its connection"], [], none⟩
  | .error (.Payload code message) =>
      if code = NODE_NOT_RUNNING_ERROR then
        ⟨some (.error (.Payload code message)), [],
          ["MASQNode is not running; therefore it cannot be shut down."], none⟩
      else ⟨none, [], [], none⟩
  | .error (.Other _) => ⟨none, [], [], none⟩

/-- Embedding of the loop of `ShutdownAwaiterReal::wait`, with time
idealized: connection attempts are instantaneous, each iteration advances
the clock by the interval via the sleep, and `answers n` tells whether the
node accepts the n-th connection attempt.  Returns the wait result
together with the number of connection attempts made.  The fuel only
bounds the recursion; it is chosen so that it never runs out for a
positive interval. -/
def shutdownAwaiterLoop (answers : Nat → Bool) (interval timeout : Nat) :
    Nat → Nat → Nat → Bool × Nat
  | _, attempt, 0 => (false, attempt)
  | now, attempt, fuel + 1 =>
      if now < timeout then
        if answers attempt then
          shutdownAwaiterLoop answers interval timeout (now + interval) (attempt + 1) fuel
        else (true, attempt + 1)
      else (false, attempt)

/-- Embedding of `ShutdownAwaiterReal::wait`: the third parameter is a
deadline in milliseconds (`timeout_ms`), polled from time zero. -/
def shutdownAwaiterWait (answers : Nat → Bool) (intervalMs timeoutMs : Nat) : Bool × Nat :=
  shutdownAwaiterLoop answers intervalMs timeoutMs 0 0 (timeoutMs + 1)

/-- C7: `execute` hands `attempt_limit` to the awaiter's `timeout_ms`
parameter, so with the defaults the 4 is a 4 ms deadline rather than a
budget of 4 polling attempts: whatever the node does, exactly one
connection attempt is ever made (the 250 ms interval exceeds the 4 ms
deadline), `wait` returns false while the node keeps answering after that
single attempt, and one attempt is not the advertised limit of four. -/
theorem shutdown_awaiter_limit_used_as_timeout :
    (∀ port : Nat, ∀ awaiter : Nat → Nat → Nat → Bool,
      (shutdownExecute (Except.ok ()) port awaiter DEFAULT_SHUTDOWN_ATTEMPT_INTERVAL
          DEFAULT_SHUTDOWN_ATTEMPT_LIMIT).awaiterCall =
        some (port, DEFAULT_SHUTDOWN_ATTEMPT_INTERVAL, DEFAULT_SHUTDOWN_ATTEMPT_LIMIT)) ∧
    (∀ answers : Nat → Bool,
      (shutdownAwaiterWait answers DEFAULT_SHUTDOWN_ATTEMPT_INTERVAL
        DEFAULT_SHUTDOWN_ATTEMPT_LIMIT).2 = 1) ∧
    shutdownAwaiterWait (fun _ => true) DEFAULT_SHUTDOWN_ATTEMPT_INTERVAL
      DEFAULT_SHUTDOWN_ATTEMPT_LIMIT = (false, 1) ∧
    (1 : Nat) ≠ DEFAULT_SHUTDOWN_ATTEMPT_LIMIT := by
  refine ⟨?_, ?_, by decide, by decide⟩
  · intro port awaiter
    cases h : awaiter port DEFAULT_SHUTDOWN_ATTEMPT_INTERVAL DEFAULT_SHUTDOWN_ATTEMPT_LIMIT <;>
      simp [shutdownExecute, h]
  · intro answers
    cases h : answers 0 <;>
      simp [shutdownAwaiterWait, shutdownAwaiterLoop, h,
        DEFAULT_SHUTDOWN_ATTEMPT_INTERVAL, DEFAULT_SHUTDOWN_ATTEMPT_LIMIT]

/-- C8: the error handling of `ShutdownCommand::execute`: a dropped
connection or transmission error counts as a successful shutdown (stdout
message, `Ok`, awaiter never invoked); a payload error with the
node-not-running code is reported on stderr and returned; any other
transaction error panics. -/
theorem shutdown_execute_error_cases (s msg : String) (code activePort i l : Nat)
    (awaiter : Nat → Nat → Nat → Bool) (hcode : code ≠ NODE_NOT_RUNNING_ERROR) :
    shutdownExecute (.error (.ConnectionDropped s)) activePort awaiter i l =
      ⟨some (.ok ()),
        ["MASQNode was instructed to shut down and has broken its connection"], [], none⟩ ∧
    shutdownExecute (.error (.Transmission s)) activePort awaiter i l =
      ⟨some (.ok ()),
        ["MASQNode was instructed to shut down and has broken its connection"], [], none⟩ ∧
    shutdownExecute (.error (.Payload NODE_NOT_RUNNING_ERROR msg)) activePort awaiter i l =
      ⟨some (.error (.Payload NODE_NOT_RUNNING_ERROR msg)), [],
        ["MASQNode is not running; therefore it cannot be shut down."], none⟩ ∧
    (shutdownExecute (.error (.Payload code msg)) activePort awaiter i l).outcome = none ∧
    (shutdownExecute (.error (.Other s)) activePort awaiter i l).outcome = none := by
  refine ⟨rfl, rfl, by simp [shutdownExecute], ?_, rfl⟩
  simp [shutdownExecute, hcode]

/-- C8 witness: the error cases at concrete inputs. -/
theorem shutdown_execute_error_cases_case :
    shutdownExecute (.error (.ConnectionDropped "booga")) 0 (fun _ _ _ => true) 0 0 =
      ⟨some (.ok ()),
        ["MASQNode was instructed to shut down and has broken its connection"], [], none⟩ ∧
    shutdownExecute (.error (.Transmission "booga")) 0 (fun _ _ _ => true) 0 0 =
      ⟨some (.ok ()),
        ["MASQNode was instructed to shut down and has broken its connection"], [], none⟩ ∧
    shutdownExecute (.error (.Payload NODE_NOT_RUNNING_ERROR "irrelevant")) 0
        (fun _ _ _ => true) 0 0 =
      ⟨some (.error (.Payload NODE_NOT_RUNNING_ERROR "irrelevant")), [],
        ["MASQNode is not running; therefore it cannot be shut down."], none⟩ ∧
    (shutdownExecute (.error (.Payload 0 "irrelevant")) 0 (fun _ _ _ => true) 0 0).outcome =
      none ∧
    (shutdownExecute (.error (.Other "booga")) 0 (fun _ _ _ => true) 0 0).outcome = none :=
  shutdown_execute_error_cases "booga" "irrelevant" 0 0 0 0 (fun _ _ _ => true) (by decide)

/-- Embedding of `UiSetupResponseValueStatus` (declared in `masq_lib`, used
throughout `setup_reporter.rs`). -/
inductive UiSetupResponseValueStatus where
  | Default
  | Configured
  | Set
  | Blank
  | Required
deriving DecidableEq

/-- Modelled from the spec: the numeric priority of a setup value status
used by `choose_uisrv` (`masq_lib`'s `value()` is not under `src/`); a set
value outranks a configured one, which outranks a default, with blank and
required lowest. -/
def statusValue : UiSetupResponseValueStatus → Nat
  | .Blank => 0
  | .Required => 0
  | .Default => 1
  | .Configured => 2
  | .Set => 3

/-- Embedding of `UiSetupResponseValue`. -/
structure UiSetupResponseValue where
  name : String
  value : String
  status : UiSetupResponseValueStatus
deriving DecidableEq

/-- Embedding of `UiSetupRequestValue`: an incoming setup parameter, whose
absent value requests removal of the parameter. -/
structure UiSetupRequestValue where
  name : String
  value : Option String
deriving DecidableEq

/-- Embedding of `SetupCluster`, the name-keyed map of setup values,
modelled as an association list. -/
abbrev SetupCluster : Type := List (String × UiSetupResponseValue)

/-- Map lookup on a setup cluster. -/
def clusterGet (c : SetupCluster) (k : String) : Option UiSetupResponseValue :=
  List.lookup k c

/-- Map insertion on a setup cluster, replacing an existing entry. -/
def clusterInsert (c : SetupCluster) (k : String) (v : UiSetupResponseValue) : SetupCluster :=
  if (clusterGet c k).isSome then
    c.map fun kv => if kv.1 = k then (k, v) else kv
  else c ++ [(k, v)]

/-- Embedding of `SetupReporterReal::choose_uisrv`: the incoming value wins
when its status priority is at least the existing one's. -/
def chooseUisrv (existing incoming : UiSetupResponseValue) : UiSetupResponseValue :=
  if statusValue existing.status ≤ statusValue incoming.status then incoming else existing

/-- Embedding of `SetupReporterReal::combine_clusters`: clusters are merged
left to right, a colliding entry resolved by `choose_uisrv` against the
value accumulated so far. -/
def combineClusters (clusters : List SetupCluster) : SetupCluster :=
  clusters.foldl
    (fun result cluster =>
      let step : SetupCluster := cluster.map fun kv =>
        match clusterGet result kv.1 with
        | some existing => (kv.1, chooseUisrv existing kv.2)
        | none => kv
      step.foldl (fun res kv => clusterInsert res kv.1 kv.2) result)
    []

/-- Embedding of `ConfiguratorError`. -/
structure ConfiguratorError where
  msg : String
deriving DecidableEq

/-- Embedding of the `ValueRetriever` trait: each setup parameter knows its
name and whether it is required given the combined setup. -/
structure ValueRetriever where
  value_name : String
  is_required : SetupCluster → Bool

/-- Embedding of `is_required_for_blockchain`: required unless the
neighborhood mode is zero-hop. -/
def is_required_for_blockchain (params : SetupCluster) : Bool :=
  match clusterGet params "neighborhood-mode" with
  | some nhm => if nhm.value = "zero-hop" then false else true
  | none => true

/-- Embedding of `Ip::is_required`: required exactly in standard
neighborhood mode, or when no mode is known. -/
def ipIsRequired (params : SetupCluster) : Bool :=
  match clusterGet params "neighborhood-mode" with
  | some nhm => nhm.value == "standard"
  | none => true

/-- Embedding of `Neighbors::is_required`: not required in standard or
zero-hop mode, required otherwise. -/
def neighborsIsRequired (params : SetupCluster) : Bool :=
  match clusterGet params "neighborhood-mode" with
  | some nhm => !(nhm.value == "standard" || nhm.value == "zero-hop")
  | none => true

/-- Embedding of `value_retrievers()`: the fifteen setup parameters with
their requiredness rules, in source order. -/
def value_retrievers : List ValueRetriever :=
  [⟨"blockchain-service-url", is_required_for_blockchain⟩,
    ⟨"chain", fun _ => true⟩,
    ⟨"clandestine-port", fun _ => true⟩,
    ⟨"config-file", fun _ => false⟩,
    ⟨"consuming-private-key", fun _ => false⟩,
    ⟨"data-directory", fun _ => true⟩,
    ⟨"db-password", is_required_for_blockchain⟩,
    ⟨"dns-servers", fun _ => true⟩,
    ⟨"earning-wallet", is_required_for_blockchain⟩,
    ⟨"gas-price", is_required_for_blockchain⟩,
    ⟨"ip", ipIsRequired⟩,
    ⟨"log-level", fun _ => true⟩,
    ⟨"neighborhood-mode", fun _ => true⟩,
    ⟨"neighbors", neighborsIsRequired⟩,
    ⟨"real-user", fun _ => false⟩]

/-- Embedding of `make_blank_or_required` inside `get_modified_setup`: an
empty-valued entry whose status says whether the parameter is required. -/
def makeBlankOrRequired (r : ValueRetriever) (combined : SetupCluster) :
    String × UiSetupResponseValue :=
  (r.value_name,
    ⟨r.value_name, "", if r.is_required combined then .Required else .Blank⟩)

/-- Embedding of the final per-retriever step of `get_modified_setup`: a
combined entry with status Blank or Required is regenerated blank, any
other entry is kept, and a missing entry is generated blank or
required. -/
def runRetrieversEntry (r : ValueRetriever) (combined : SetupCluster) :
    String × UiSetupResponseValue :=
  match clusterGet combined r.value_name with
  | some uisrv =>
      if uisrv.status = .Blank ∨ uisrv.status = .Required then
        makeBlankOrRequired r combined
      else (r.value_name, uisrv)
  | none => makeBlankOrRequired r combined

/-- Embedding of the final run through the retrievers that produces
`get_modified_setup`'s result. -/
def runRetrievers (rs : List ValueRetriever) (combined : SetupCluster) : SetupCluster :=
  rs.map fun r => runRetrieversEntry r combined

/-- Embedding of `SetupReporterReal::get_modified_setup`.  The parts whose
outcome depends on the environment, `calculate_fundamentals` plus
`calculate_configured_setup` (clap defaults, config file, database), are
abstracted into the `calcConfigured` oracle applied to the first combined
cluster; everything else follows the source: incoming values without a
value remove their names from the existing setup, the remaining incoming
values become Set entries, the clusters are combined, and the final
cluster is rebuilt through the value retrievers. -/
def get_modified_setup (defaultSetup existingSetup : SetupCluster)
    (incomingSetup : List UiSetupRequestValue)
    (calcConfigured : SetupCluster → Except ConfiguratorError SetupCluster) :
    Except ConfiguratorError SetupCluster :=
  let existing2 : SetupCluster := existingSetup.filter fun kv =>
    !(incomingSetup.any fun iv => iv.value.isNone && iv.name == kv.1)
  let incoming2 : SetupCluster := incomingSetup.filterMap fun iv =>
    iv.value.map fun s => (iv.name, UiSetupResponseValue.mk iv.name s .Set)
  let combined1 := combineClusters [defaultSetup, existing2, incoming2]
  (calcConfigured combined1).map fun configuredSetup =>
    runRetrievers value_retrievers
      (combineClusters [defaultSetup, configuredSetup, existing2, incoming2])

theorem runRetrieversEntry_fst (r : ValueRetriever) (combined : SetupCluster) :
    (runRetrieversEntry r combined).1 = r.value_name := by
  unfold runRetrieversEntry
  cases h : clusterGet combined r.value_name with
  | none => rfl
  | some u =>
      dsimp only
      split
      · rfl
      · rfl

theorem runRetrieversEntry_blank_value (r : ValueRetriever) (combined : SetupCluster)
    (h : (runRetrieversEntry r combined).2.status = .Blank ∨
      (runRetrieversEntry r combined).2.status = .Required) :
    (runRetrieversEntry r combined).2.value = "" := by
  unfold runRetrieversEntry at h ⊢
  cases hl : clusterGet combined r.value_name with
  | none => rfl
  | some u =>
      rw [hl] at h
      dsimp only at h ⊢
      by_cases hc : u.status = UiSetupResponseValueStatus.Blank ∨
          u.status = UiSetupResponseValueStatus.Required
      · rw [if_pos hc]; rfl
      · rw [if_neg hc] at h ⊢
        exact absurd h hc

/-- C9: every successful `get_modified_setup` returns a cluster whose key
list is exactly the fifteen parameter names of `value_retrievers()`, and
every returned entry with status Blank or Required carries the empty
string as its value. -/
theorem get_modified_setup_shape (defaultSetup existingSetup : SetupCluster)
    (incomingSetup : List UiSetupRequestValue)
    (calcConfigured : SetupCluster → Except ConfiguratorError SetupCluster)
    (result : SetupCluster)
    (h : get_modified_setup defaultSetup existingSetup incomingSetup calcConfigured =
      Except.ok result) :
    result.map Prod.fst =
      ["blockchain-service-url", "chain", "clandestine-port", "config-file",
        "consuming-private-key", "data-directory", "db-password", "dns-servers",
        "earning-wallet", "gas-price", "ip", "log-level", "neighborhood-mode",
        "neighbors", "real-user"] ∧
    ∀ kv ∈ result,
      (kv.2.status = UiSetupResponseValueStatus.Blank ∨
        kv.2.status = UiSetupResponseValueStatus.Required) → kv.2.value = "" := by
  simp only [get_modified_setup] at h
  cases hc : calcConfigured (combineClusters [defaultSetup,
      existingSetup.filter fun kv =>
        !(incomingSetup.any fun iv => iv.value.isNone && iv.name == kv.1),
      incomingSetup.filterMap fun iv =>
        iv.value.map fun s => (iv.name, UiSetupResponseValue.mk iv.name s .Set)]) with
  | error e =>
      rw [hc] at h
      exact Except.noConfusion h
  | ok configuredSetup =>
      rw [hc] at h
      dsimp only [Except.map] at h
      have hr := Except.ok.inj h
      subst hr
      constructor
      · unfold runRetrievers
        rw [List.map_map]
        have : ∀ r ∈ value_retrievers,
            (Prod.fst ∘ fun r => runRetrieversEntry r
              (combineClusters [defaultSetup, configuredSetup,
                existingSetup.filter fun kv =>
                  !(incomingSetup.any fun iv => iv.value.isNone && iv.name == kv.1),
                incomingSetup.filterMap fun iv =>
                  iv.value.map fun s => (iv.name, UiSetupResponseValue.mk iv.name s .Set)]))
              r = ValueRetriever.value_name r := by
          intro r _
          exact runRetrieversEntry_fst r _
        rw [List.map_congr_left this]
        rfl
      · intro kv hkv hst
        unfold runRetrievers at hkv
        obtain ⟨r, _, hre⟩ := List.mem_map.mp hkv
        subst hre
        exact runRetrieversEntry_blank_value r _ hst

/-- C9 witness: empty default, existing and incoming setups with a trivially
successful configuration step; the result holds the fifteen names, all of
them blank or required with empty values. -/
theorem get_modified_setup_shape_case :
    ([("blockchain-service-url", ⟨"blockchain-service-url", "", .Required⟩),
      ("chain", ⟨"chain", "", .Required⟩),
      ("clandestine-port", ⟨"clandestine-port", "", .Required⟩),
      ("config-file", ⟨"config-file", "", .Blank⟩),
      ("consuming-private-key", ⟨"consuming-private-key", "", .Blank⟩),
      ("data-directory", ⟨"data-directory", "", .Required⟩),
      ("db-password", ⟨"db-password", "", .Required⟩),
      ("dns-servers", ⟨"dns-servers", "", .Required⟩),
      ("earning-wallet", ⟨"earning-wallet", "", .Required⟩),
      ("gas-price", ⟨"gas-price", "", .Required⟩),
      ("ip", ⟨"ip", "", .Required⟩),
      ("log-level", ⟨"log-level", "", .Required⟩),
      ("neighborhood-mode", ⟨"neighborhood-mode", "", .Required⟩),
      ("neighbors", ⟨"neighbors", "", .Required⟩),
      ("real-user", ⟨"real-user", "", .Blank⟩)] :
        List (String × UiSetupResponseValue)).map Prod.fst =
      ["blockchain-service-url", "chain", "clandestine-port", "config-file",
        "consuming-private-key", "data-directory", "db-password", "dns-servers",
        "earning-wallet", "gas-price", "ip", "log-level", "neighborhood-mode",
        "neighbors", "real-user"] ∧
    ∀ kv ∈ ([("blockchain-service-url", ⟨"blockchain-service-url", "", .Required⟩),
      ("chain", ⟨"chain", "", .Required⟩),
      ("clandestine-port", ⟨"clandestine-port", "", .Required⟩),
      ("config-file", ⟨"config-file", "", .Blank⟩),
      ("consuming-private-key", ⟨"consuming-private-key", "", .Blank⟩),
      ("data-directory", ⟨"data-directory", "", .Required⟩),
      ("db-password", ⟨"db-password", "", .Required⟩),
      ("dns-servers", ⟨"dns-servers", "", .Required⟩),
      ("earning-wallet", ⟨"earning-wallet", "", .Required⟩),
      ("gas-price", ⟨"gas-price", "", .Required⟩),
      ("ip", ⟨"ip", "", .Required⟩),
      ("log-level", ⟨"log-level", "", .Required⟩),
      ("neighborhood-mode", ⟨"neighborhood-mode", "", .Required⟩),
      ("neighbors", ⟨"neighbors", "", .Required⟩),
      ("real-user", ⟨"real-user", "", .Blank⟩)] :
        List (String × UiSetupResponseValue)),
      (kv.2.status = UiSetupResponseValueStatus.Blank ∨
        kv.2.status = UiSetupResponseValueStatus.Required) → kv.2.value = "" :=
  get_modified_setup_shape [] [] [] (fun _ => Except.ok []) _ rfl

/-- Embedding of an inspected DNS server address. -/
structure IpAddr where
  octets : List Nat
deriving DecidableEq

/-- Embedding of `DnsInspectionError` with its three variants. -/
inductive DnsInspectionError where
  | NotConnected
  | BadEntryFormat (msg : String)
  | InvalidConfigFile (msg : String)
deriving DecidableEq

/-- Embedding of the `Debug` impl for `DnsInspectionError`: every arm of the
source match is `unimplemented!()`, a panic, modelled as `none`. -/
def DnsInspectionError.fmtDebug : DnsInspectionError → Option String
  | .NotConnected => none
  | .BadEntryFormat _ => none
  | .InvalidConfigFile _ => none

/-- Modelled from the spec: `dns_servers()` delegates to the DnsModifier the
factory makes (that code is not under `src/`) and returns its inspection
result unchanged, carrying `DnsInspectionError` in its error position. -/
def dns_servers (inspectResult : Except DnsInspectionError (List IpAddr)) :
    Except DnsInspectionError (List IpAddr) :=
  inspectResult

/-- C10: Debug-formatting any `DnsInspectionError` panics for every one of
the three variants, even though `dns_servers` hands exactly these values
to callers in its error position. -/
theorem dns_inspection_error_debug_panics :
    (∀ e : DnsInspectionError, e.fmtDebug = none) ∧
    (∀ r e, dns_servers r = Except.error e → DnsInspectionError.fmtDebug e = none) := by
  constructor
  · intro e
    cases e <;> rfl
  · intro r e _
    cases e <;> rfl

/-- C10 witness: the not-connected error returned by an inspection panics
when Debug-formatted. -/
theorem dns_inspection_error_debug_panics_case :
    DnsInspectionError.fmtDebug DnsInspectionError.NotConnected = none :=
  dns_inspection_error_debug_panics.2 (Except.error DnsInspectionError.NotConnected)
    DnsInspectionError.NotConnected rfl

end MasqNode
